import Mathlib

/-!
Shallow embedding of the TinyTest header-only test framework
(src/tiny_test.hpp) and proofs about its execution protocol.

Modelling conventions:
- Console output is a `List Line`, one abstract `Line` per `std::cout`
  statement of the source, carrying the payload that matters.
- A thrown C++ exception is a `CppError`; a computation that may throw
  returns `Except CppError _`, and output printed before the throw is kept
  alongside (`List Line × Except CppError Bool`).
- `double` durations and the operands of `float_equals` are modelled as `ℚ`;
  the default `max_runtime_` value `std::numeric_limits<double>::infinity()`
  is `⊤` in `WithTop ℚ`.
-/

namespace TinyTest

/-- A thrown C++ value as discriminated by the two catch clauses of
`Test::operator()`: a `std::exception` carrying its `what()` message, or
anything else (caught by `catch (...)`). -/
inductive CppError where
| exc (what : String)
| other
deriving DecidableEq

/-- One line of console output, abstracted to its kind and payload:
`testBanner` for the `test "<name>"` line, `caughtException` and
`caughtUnknown` for the two catch clauses, `passFail` for the `[OK]`/`[FAIL]`
banner, `checkFailed` for the source-location diagnostic of a failed
`check`, `equalsDiag` for the operand dump of a failed `equals`,
`floatDiag` for the operand dump of a failed `float_equals`, `finishedIn`
and `slowerThan` for the two `TimedTest` lines, and `groupBanner`,
`groupFailed`, `failedSummary` for the three `TestGroup::run` lines. -/
inductive Line where
| testBanner (name : String)
| caughtException (what : String)
| caughtUnknown
| passFail (ok : Bool)
| checkFailed
| equalsDiag
| floatDiag (x y err : ℚ)
| finishedIn (ms : ℚ)
| slowerThan (limit : WithTop ℚ)
| groupBanner (name : String)
| groupFailed
| failedSummary (errors total : ℕ)
deriving DecidableEq

/-- The mutable state of a `PrettyTest` object: its `result_` data member,
initialised to `true` at construction and never reset afterwards. -/
structure PrettyState where
  result_ : Bool
deriving DecidableEq

/-- `PrettyTest::check`: `result_ &= condition`; if the condition is false a
source-location diagnostic is printed; the condition itself is returned. -/
def check (condition : Bool) (s : PrettyState) : Bool × List Line × PrettyState :=
  (condition, if condition then [] else [Line.checkFailed], ⟨s.result_ && condition⟩)

/-- `PrettyTest::fail`: `check(false)`. -/
def fail (s : PrettyState) : Bool × List Line × PrettyState :=
  check false s

/-- `PrettyTest::equals`, the `Printable`-constrained overload: performs
`check(first == second)` and, when that fails, additionally prints the two
operands with their type names. -/
def equalsPrintable {α : Type} [BEq α] (first second : α) (s : PrettyState) :
    Bool × List Line × PrettyState :=
  let r := check (first == second) s
  (r.1, r.2.1 ++ (if r.1 then [] else [Line.equalsDiag]), r.2.2)

/-- `PrettyTest::equals`, the unconstrained overload: `check(first == second)`. -/
def equalsPlain {α : Type} [BEq α] (first second : α) (s : PrettyState) :
    Bool × List Line × PrettyState :=
  check (first == second) s

/-- `PrettyTest::float_equals` in the source-location build:
`check(std::abs(x - y) < error)`, printing both operands and the epsilon
when the check fails. -/
def float_equals (x y error : ℚ) (s : PrettyState) : Bool × List Line × PrettyState :=
  let r := check (decide (|x - y| < error)) s
  (r.1, r.2.1 ++ (if r.1 then [] else [Line.floatDiag x y error]), r.2.2)

/-- A `PrettyTest` functor that issues a sequence of `check` calls: run the
calls in order, threading the recorder state and collecting the output. -/
def runChecks : List Bool → PrettyState → List Line × PrettyState
  | [], s => ([], s)
  | c :: cs, s =>
    let r := check c s
    let rest := runChecks cs r.2.2
    (r.2.1 ++ rest.1, rest.2)

/-- `PrettyTest::doTest` for a functor that issues the checks in `checks` and
returns normally: run the functor on the object (`f_(*this)`), then return
`result_`. The state is the object's member and persists after the call. -/
def prettyDoTest (checks : List Bool) (s : PrettyState) :
    List Line × Bool × PrettyState :=
  let r := runChecks checks s
  (r.1, r.2.result_, r.2)

/-- `Test::operator()`: prints the test banner, initialises the result to
`false`, runs `doTest` inside a try block whose two catch clauses print a
diagnostic (the `what()` message for a `std::exception`, `caught unknown
exception` otherwise), prints the OK/FAIL banner, and returns the result. -/
def testRun (name : String) (body : List Line × Except CppError Bool) :
    List Line × Bool :=
  let res := match body.2 with
    | .ok b => b
    | .error _ => false
  let caught := match body.2 with
    | .ok _ => []
    | .error (.exc w) => [Line.caughtException w]
    | .error .other => [Line.caughtUnknown]
  (Line.testBanner name :: body.1 ++ caught ++ [Line.passFail res], res)

/-- The default value of `TimedTest::max_runtime_`:
`std::numeric_limits<double>::infinity()`. -/
def maxRuntimeDefault : WithTop ℚ := ⊤

/-- `TimedTest::doTest`: runs the wrapped `Parent::doTest`; on normal return
it prints the elapsed time and, when `max_runtime_ < execution_ms`, prints the
limit diagnostic and returns `false`, otherwise the wrapped result. There is
no try/catch here, so a thrown error propagates with only the wrapped call's
partial output. `elapsed` is the measured duration in milliseconds. -/
def timedDoTest (max_runtime : WithTop ℚ) (elapsed : ℚ)
    (inner : List Line × Except CppError Bool) :
    List Line × Except CppError Bool :=
  match inner.2 with
  | .error e => (inner.1, .error e)
  | .ok result =>
    let out := inner.1 ++ [Line.finishedIn elapsed]
    if max_runtime < (elapsed : WithTop ℚ) then
      (out ++ [Line.slowerThan max_runtime], .ok false)
    else
      (out, .ok result)

instance {ε α : Type} [DecidableEq ε] [DecidableEq α] : DecidableEq (Except ε α) := fun a b =>
  match a, b with
  | .ok x, .ok y =>
    if h : x = y then .isTrue (by rw [h]) else .isFalse (fun hh => h (Except.ok.inj hh))
  | .ok _, .error _ => .isFalse (fun hh => Except.noConfusion hh)
  | .error _, .ok _ => .isFalse (fun hh => Except.noConfusion hh)
  | .error x, .error y =>
    if h : x = y then .isTrue (by rw [h]) else .isFalse (fun hh => h (Except.error.inj hh))

/-- A test unit as owned by a `TestGroup`: a `SimpleTest` whose predicate
functor yields `f` (a result or a thrown error), or a `PrettyTest` whose
recorder functor issues the checks in `checks` and then either returns
(`err = none`) or throws `e` (`err = some e`), together with the object's
persistent `result_` state. -/
inductive GUnit where
| simple (name : String) (f : Except CppError Bool)
| pretty (name : String) (checks : List Bool) (err : Option CppError) (st : PrettyState)
deriving DecidableEq

/-- One `(*test)()` call of the loop in `TestGroup::run`: the unit's output,
its boolean result, and the unit as the run leaves it (a `PrettyTest` keeps
its mutated `result_`; checks issued before a throw still took effect). -/
def runGUnit : GUnit → List Line × Bool × GUnit
  | .simple name f =>
    let r := testRun name ([], f)
    (r.1, r.2, .simple name f)
  | .pretty name checks err st =>
    let run := runChecks checks st
    let body : List Line × Except CppError Bool :=
      match err with
      | none => (run.1, .ok run.2.result_)
      | some e => (run.1, .error e)
    let r := testRun name body
    (r.1, r.2, .pretty name checks err run.2)

/-- The loop of `TestGroup::run` over the stored units: concatenated output,
the `errors` counter, and the units' final states, in order. -/
def runUnits : List GUnit → List Line × ℕ × List GUnit
  | [] => ([], 0, [])
  | u :: us =>
    let r := runGUnit u
    let rest := runUnits us
    (r.1 ++ rest.1, (if r.2.1 then 0 else 1) + rest.2.1, r.2.2 :: rest.2.2)

/-- `TestGroup::run`: prints the group banner, runs every stored unit in
order counting the failed ones, prints the `Group failed!` line and the
`Failed errors/total` summary exactly when the count is nonzero, and returns
`errors == 0`. -/
def groupRun (name : String) (tests_ : List GUnit) :
    List Line × Bool × List GUnit :=
  let r := runUnits tests_
  let result : Bool := decide (r.2.1 = 0)
  (Line.groupBanner name :: r.1 ++
      (if result then []
       else [Line.groupFailed, Line.failedSummary r.2.1 tests_.length]),
   result, r.2.2)

/-- `tests_` as built by the variadic `TestGroup` constructor from the
argument pack: `TestGroup(name, first, other...)` first delegates to
`TestGroup(name, other...)` and only then, in its own body, runs
`add(std::move(first))`. -/
def ctorTests : List GUnit → List GUnit
  | [] => []
  | first :: other => ctorTests other ++ [first]

/-! Helper lemmas. -/

/-- The recorder state after a sequence of checks: the previous `result_`
ANDed with the conjunction of all the issued conditions. -/
theorem runChecks_result (checks : List Bool) (s : PrettyState) :
    (runChecks checks s).2.result_ = (s.result_ && checks.all id) := by
  induction checks generalizing s with
  | nil => simp [runChecks]
  | cons c cs ih => simp [runChecks, check, ih, Bool.and_assoc]

/-- The conjunction of a list of booleans is invariant under permutation. -/
theorem all_id_perm {l l' : List Bool} (h : l.Perm l') : l.all id = l'.all id := by
  induction h with
  | nil => rfl
  | cons a _ ih => simp [ih]
  | swap a b l =>
    simp [List.all_cons]
    rw [← Bool.and_assoc, ← Bool.and_assoc, Bool.and_comm b a]
  | trans _ _ ih₁ ih₂ => exact ih₁.trans ih₂

/-- The error counter of the `TestGroup::run` loop counts exactly the units
whose run returned `false`. -/
theorem runUnits_errors (us : List GUnit) :
    (runUnits us).2.1 = us.countP (fun u => !(runGUnit u).2.1) := by
  induction us with
  | nil => rfl
  | cons u us ih =>
    simp only [runUnits, ih, List.countP_cons]
    cases h : (runGUnit u).2.1 <;> simp [h, Nat.add_comm]

/-- The output of the `TestGroup::run` loop is the concatenation, in storage
order, of each unit's single run output. -/
theorem runUnits_output (us : List GUnit) :
    (runUnits us).1 = (us.map (fun u => (runGUnit u).1)).flatten := by
  induction us with
  | nil => rfl
  | cons u us ih => simp [runUnits, ih]

/-- Running a unit a second time, from the state the first run left, yields
the same boolean result: a `SimpleTest` carries no state, and a `PrettyTest`
re-ANDs the same conjunction onto an already ANDed `result_`. -/
theorem runGUnit_again (u : GUnit) :
    (runGUnit (runGUnit u).2.2).2.1 = (runGUnit u).2.1 := by
  cases u with
  | simple name f => rfl
  | pretty name checks err st =>
    cases err with
    | some e => rfl
    | none =>
      simp only [runGUnit, testRun, prettyDoTest, runChecks_result]
      rw [Bool.and_assoc, Bool.and_self]

/-- A second pass of the `TestGroup::run` loop, from the unit states the
first pass left, produces the same error count. -/
theorem runUnits_again_errors (us : List GUnit) :
    (runUnits (runUnits us).2.2).2.1 = (runUnits us).2.1 := by
  induction us with
  | nil => rfl
  | cons u us ih => simp [runUnits, ih, runGUnit_again u]

/-! Claim theorems. -/

/-- C1: for a Recorder-variant (`PrettyTest`) unit on a freshly constructed
object whose functor issues the checks in `checks` and returns normally,
`doTest` returns the logical AND of all the individual check values,
starting from `true`; any permutation of the same checks yields the same
final result. -/
theorem prettyDoTest_all_and (checks checks' : List Bool)
    (h : checks.Perm checks') :
    (prettyDoTest checks ⟨true⟩).2.1 = checks.all id ∧
    (prettyDoTest checks' ⟨true⟩).2.1 = (prettyDoTest checks ⟨true⟩).2.1 := by
  constructor
  · simp [prettyDoTest, runChecks_result]
  · simp [prettyDoTest, runChecks_result, all_id_perm h]

/-- Witness for C1 at the spec's example: checks `[true, false, true]` and
their permutation `[false, true, true]` both yield overall `false`. -/
theorem prettyDoTest_all_and_witness :
    (prettyDoTest [true, false, true] ⟨true⟩).2.1 = [true, false, true].all id ∧
    (prettyDoTest [false, true, true] ⟨true⟩).2.1 =
      (prettyDoTest [true, false, true] ⟨true⟩).2.1 :=
  prettyDoTest_all_and [true, false, true] [false, true, true] (by decide)

/-- C2: any error thrown by the user functor is caught inside
`Test::operator()`: the run returns `false` for every error kind, with or
without a message, and still prints the FAIL banner; the caught error never
escapes the unit (the run's result is a plain boolean). -/
theorem testRun_error_contained (name : String) (lines : List Line) (e : CppError) :
    (testRun name (lines, Except.error e)).2 = false ∧
    Line.passFail false ∈ (testRun name (lines, Except.error e)).1 := by
  refine ⟨rfl, ?_⟩
  cases e <;> simp [testRun]

/-- Witness for C2: a message-carrying and a message-less error both yield a
failed run. -/
theorem testRun_error_contained_witness :
    (testRun "t" ([], Except.error (CppError.exc "boom"))).2 = false ∧
    Line.passFail false ∈ (testRun "t" ([], Except.error (CppError.exc "boom"))).1 :=
  testRun_error_contained "t" [] (CppError.exc "boom")

/-- C3: `TestGroup::run` runs every owned unit exactly once, in storage
order (its output is the concatenation of every unit's single-run output);
it returns `true` iff the number of units whose run returned `false` is
zero, and the `Group failed!` / failed-total summary lines appear exactly
when that number is nonzero. -/
theorem groupRun_correct (name : String) (units : List GUnit) :
    ((groupRun name units).2.1 = true ↔
      units.countP (fun u => !(runGUnit u).2.1) = 0) ∧
    (groupRun name units).1 =
      Line.groupBanner name :: (units.map (fun u => (runGUnit u).1)).flatten ++
        (if units.countP (fun u => !(runGUnit u).2.1) = 0 then []
         else [Line.groupFailed,
           Line.failedSummary (units.countP (fun u => !(runGUnit u).2.1))
             units.length]) := by
  constructor
  · simp [groupRun, runUnits_errors]
  · simp only [groupRun, runUnits_errors, runUnits_output]
    by_cases h : units.countP (fun u => !(runGUnit u).2.1) = 0 <;> simp [h]

/-- C10: a `TestGroup` owning zero units returns `true` from `run()` and
prints only the group banner, never a failure summary. -/
theorem groupRun_empty (name : String) :
    groupRun name [] = ([Line.groupBanner name], true, []) := rfl

/-- C5 counterexample: constructing a group from the two-unit argument pack
`[a, b]` stores `[b, a]`: the variadic constructor delegates to the tail
constructor first and appends `first` afterwards, so storage is not the
order given. -/
theorem ctorTests_reverses_two :
    ctorTests [GUnit.simple "a" (Except.ok true), GUnit.simple "b" (Except.ok false)] =
      [GUnit.simple "b" (Except.ok false), GUnit.simple "a" (Except.ok true)] ∧
    ctorTests [GUnit.simple "a" (Except.ok true), GUnit.simple "b" (Except.ok false)] ≠
      [GUnit.simple "a" (Except.ok true), GUnit.simple "b" (Except.ok false)] := by
  exact ⟨rfl, by decide⟩

/-- C5 amended: the variadic `TestGroup` constructor stores the argument
units in reverse of the order in which they were given, and `run()` then
executes the stored sequence front to back, so the units execute in reverse
argument order. -/
theorem ctorTests_eq_reverse (args : List GUnit) :
    ctorTests args = args.reverse := by
  induction args with
  | nil => rfl
  | cons a l ih => simp [ctorTests, ih]

/-- C4: for a wrapped unit that returns normally, the timed result equals
the wrapped result AND `elapsed ≤ limit`; an elapsed duration exactly equal
to a (finite) limit passes; with the default limit (infinity, the value used
when the limit is omitted) the wrapped result is always returned unchanged. -/
theorem timedDoTest_result (limit : WithTop ℚ) (elapsed : ℚ)
    (lines : List Line) (r : Bool) :
    (timedDoTest limit elapsed (lines, Except.ok r)).2 =
      Except.ok (r && decide ((elapsed : WithTop ℚ) ≤ limit)) ∧
    (timedDoTest (elapsed : WithTop ℚ) elapsed (lines, Except.ok r)).2 =
      Except.ok r ∧
    (timedDoTest maxRuntimeDefault elapsed (lines, Except.ok r)).2 =
      Except.ok r := by
  refine ⟨?_, ?_, ?_⟩
  · by_cases h : limit < (elapsed : WithTop ℚ)
    · simp [timedDoTest, h, not_le_of_lt h]
    · simp [timedDoTest, h, not_lt.mp h]
  · simp [timedDoTest, lt_irrefl]
  · simp [timedDoTest, maxRuntimeDefault, not_top_lt]

/-- C9 counterexample: when the wrapped unit's functor throws,
`TimedTest::doTest` prints no elapsed-time line at all (there is no
try/catch around `Parent::doTest()`, so the error propagates before the
print). -/
theorem timedDoTest_error_no_elapsed :
    (timedDoTest maxRuntimeDefault 0 ([], Except.error CppError.other)).1 = [] ∧
    (timedDoTest maxRuntimeDefault 0 ([], Except.error CppError.other)).2 =
      Except.error CppError.other :=
  ⟨rfl, rfl⟩

/-- C9 amended: on every normal return of the wrapped unit the elapsed-time
line is printed, followed by the exceeded-limit diagnostic exactly when the
measured duration strictly exceeds the limit; when the wrapped functor
throws, the output is only the wrapped call's partial output — no
elapsed-time line is appended — and the error propagates out of `doTest`
(to be caught later in `Test::operator()`). -/
theorem timedDoTest_output (limit : WithTop ℚ) (elapsed : ℚ)
    (lines : List Line) (r : Bool) (e : CppError) :
    (timedDoTest limit elapsed (lines, Except.ok r)).1 =
      lines ++ [Line.finishedIn elapsed] ++
        (if limit < (elapsed : WithTop ℚ) then [Line.slowerThan limit] else []) ∧
    timedDoTest limit elapsed (lines, Except.error e) = (lines, Except.error e) := by
  refine ⟨?_, rfl⟩
  by_cases h : limit < (elapsed : WithTop ℚ) <;> simp [timedDoTest, h]

/-- C6 counterexample: the Check Recorder state is not freshly created per
execution — `result_` is a data member of the `PrettyTest` object. A first
run whose functor issues `check(false)` leaves `result_ = false`, so a
second run of the same object whose functor issues only `check(true)`
returns `false`, while the same functor on a fresh object returns `true`:
check state leaks from the first execution into the second. -/
theorem prettyState_leaks :
    (prettyDoTest [true] ⟨true⟩).2.1 = true ∧
    (prettyDoTest [true] (prettyDoTest [false] ⟨true⟩).2.2).2.1 = false := by
  decide

/-- C6 amended: running the same `TestGroup` object (hence the same
`PrettyTest` objects) a second time still produces the same pass/fail
outcome as the first run — but because re-ANDing the same conjunction onto
the persisted `result_` is idempotent, not because the recorder state is
freshly created (it persists across runs). -/
theorem groupRun_twice_same (name : String) (units : List GUnit) :
    (groupRun name (groupRun name units).2.2).2.1 = (groupRun name units).2.1 := by
  simp [groupRun, runUnits_again_errors]

/-- C7 (source-location build): `float_equals` returns `true` iff
`|x - y| < epsilon` holds with strict inequality, so two values exactly
`epsilon` apart always fail. -/
theorem float_equals_strict (x y eps : ℚ) (s : PrettyState) :
    (float_equals x y eps s).1 = decide (|x - y| < eps) ∧
    (float_equals x (x + eps) eps s).1 = false := by
  refine ⟨rfl, ?_⟩
  have hne : ¬ (|x - (x + eps)| < eps) := by
    rw [show x - (x + eps) = -eps by ring, abs_neg]
    exact not_lt.mpr (le_abs_self eps)
  exact decide_eq_false hne

/-- C8: both overloads of `equals` return exactly the boolean of
`check(first == second)` and leave the recorder in exactly the state that
`check(first == second)` leaves it, so they record the same contribution to
the running conjunction; the unconstrained overload is literally that call,
the `Printable` one only appends a diagnostic line on failure. -/
theorem equals_eq_check {α : Type} [BEq α] (a b : α) (s : PrettyState) :
    (equalsPrintable a b s).1 = (check (a == b) s).1 ∧
    (equalsPrintable a b s).2.2 = (check (a == b) s).2.2 ∧
    equalsPlain a b s = check (a == b) s :=
  ⟨rfl, rfl, rfl⟩

end TinyTest
